import Mathlib

/-!
Verification of the backend-hujan HTTP service (src/main.go) against its
natural-language specification.

The Go program serves two read endpoints over a PostgreSQL database:
`/stations` (full station listing) and `/input/data` (a dynamic projection
over the `Weather` table filtered by station number and date range, with a
caller-selected comma-separated list of measurement columns).

This file shallowly embeds the pure request-handling logic of `main.go`:
parameter parsing and validation, dynamic SQL text construction, the
(external) storage semantics of the generated query, and the row-shaping /
JSON-marshalling behaviour, and proves or refutes the frozen claims about
that logic.
-/

namespace BackendHujan

/-! ## JSON values

A small JSON value model; numbers are rationals (the claims never depend on
floating-point rounding, only on which value or null is emitted). -/

inductive Json where
  | null
  | bool (b : Bool)
  | num (q : ℚ)
  | str (s : String)
  | arr (elems : List Json)
  | obj (fields : List (String × Json))

/-- Scanned SQL cell values as seen by the Go code after `rows.Scan` into
`interface\x7b\x7d`: an SQL NULL becomes the Go nil interface (`Value.null`),
numeric columns become numbers, text columns become strings. -/
inductive Value where
  | null
  | num (q : ℚ)
  | str (s : String)
deriving DecidableEq, Repr

def valueToJson : Value → Json
  | Value.null => Json.null
  | Value.num q => Json.num q
  | Value.str s => Json.str s

/-! ## Dates: `time.Parse("2006-01-02", s)` and date comparison -/

structure Date where
  y : Nat
  m : Nat
  d : Nat
deriving DecidableEq, Repr

/-- Total order key for calendar dates (valid dates have `m < 100`, `d < 100`). -/
def Date.key (dt : Date) : Nat := dt.y * 10000 + dt.m * 100 + dt.d

def isLeapYear (y : Nat) : Bool := (y % 4 == 0 && y % 100 != 0) || y % 400 == 0

def daysInMonth (y m : Nat) : Nat :=
  if m == 2 then (if isLeapYear y then 29 else 28)
  else if m == 4 || m == 6 || m == 9 || m == 11 then 30
  else 31

def digit2 (a b : Char) : Nat := (a.toNat - 48) * 10 + (b.toNat - 48)

/-- Embedding of Go `time.Parse("2006-01-02", s)`: exactly ten characters
`dddd-dd-dd`, month in 1..12, day in range for the month (Go checks the day
against the month length, leap years included). -/
def goParseDate (s : String) : Option Date :=
  match s.data with
  | [y1, y2, y3, y4, h1, m1, m2, h2, d1, d2] =>
    if y1.isDigit && y2.isDigit && y3.isDigit && y4.isDigit &&
        (h1 == '-') && m1.isDigit && m2.isDigit && (h2 == '-') &&
        d1.isDigit && d2.isDigit then
      let y := digit2 y1 y2 * 100 + digit2 y3 y4
      let m := digit2 m1 m2
      let d := digit2 d1 d2
      if 1 ≤ m ∧ m ≤ 12 ∧ 1 ≤ d ∧ d ≤ daysInMonth y m then some ⟨y, m, d⟩ else none
    else none
  | _ => none

/-- Go `Format("2006-01-02")` zero-pads to two digits. -/
def pad2 (n : Nat) : String := if n < 10 then "0" ++ toString n else toString n

def pad4 (n : Nat) : String :=
  if n < 10 then "000" ++ toString n
  else if n < 100 then "00" ++ toString n
  else if n < 1000 then "0" ++ toString n
  else toString n

def formatDate (dt : Date) : String := pad4 dt.y ++ "-" ++ pad2 dt.m ++ "-" ++ pad2 dt.d

/-! ## `strconv.Atoi` -/

def digitsToNat (ds : List Char) : Nat := ds.foldl (fun acc c => acc * 10 + (c.toNat - 48)) 0

/-- Embedding of Go `strconv.Atoi`: optional sign, then one or more decimal
digits and nothing else; the value must fit a signed 64-bit integer
(out-of-range input makes `Atoi` return an error, which the handler treats
the same as a parse failure). -/
def goAtoi (s : String) : Option Int :=
  match s.data with
  | [] => none
  | c :: rest =>
    let ds := if c == '-' || c == '+' then rest else c :: rest
    if ds ≠ [] ∧ ds.all Char.isDigit then
      let v : Int := if c == '-' then -(digitsToNat ds : Int) else (digitsToNat ds : Int)
      if -(9223372036854775808 : Int) ≤ v ∧ v < 9223372036854775808 then some v else none
    else none

/-! ## `strings.Split(s, ",")`

Embedded as a structurally recursive split on the comma character
(`strings.Split` with a one-character nonempty separator): the empty
string splits into one empty field, and n commas yield n+1 fields. -/

def splitCommaCh : List Char → List (List Char)
  | [] => [[]]
  | c :: rest =>
    match splitCommaCh rest, c == ',' with
    | r, true => [] :: r
    | [], false => [[c]]
    | g :: gs, false => (c :: g) :: gs

def goSplitComma (s : String) : List String :=
  (splitCommaCh s.data).map String.mk

/-! ## The /input/data handler: validation and SQL text construction

`main.go` lines 148-194: the handler splits `type` on commas, wraps each
token in double quotes (without any escaping or allow-listing), joins them
with commas, rejects when the joined text is exactly `""`, rejects when
`strconv.Atoi(stationNumber)` errors (reusing the same message), splits
`dateRange` on commas, `time.Parse`s element 0 (calling `log.Fatal` on
error), indexes element 1 (panicking when absent), parses it
(`log.Fatal` on error), then builds the SELECT text and runs it. -/

/-- The code's identifier quoting (line 156): wrap in double quotes, no
escaping of embedded quote characters. -/
def quoteWrap (t : String) : String := "\"" ++ t ++ "\""

/-- The joined projection text (lines 152-160): split `type` on commas, wrap
each token, join with commas. -/
def dataTypeOf (ty : String) : String :=
  String.intercalate "," ((goSplitComma ty).map quoteWrap)

/-- The error message of both 400 paths in the handler (lines 164 and 169). -/
def missingMsg : String := "Invalid request. Missing data types."

/-- The fixed tail of the SELECT statement built at line 187. -/
def tailQueryText : String :=
  ",\"Tanggal\" FROM \"Weather\" WHERE station_number = $1 AND TO_DATE(\"Tanggal\", \x27YYYY-MM-DD\x27) BETWEEN $2 AND $3"

/-- The SELECT text the code builds for a token list, parameterised by the
identifier quoter so the code's `quoteWrap` can be compared with the
spec's correctly escaped quoting. -/
def buildQueryTextWith (quoter : String → String) (tokens : List String) : String :=
  "SELECT " ++ String.intercalate "," (tokens.map quoter) ++ tailQueryText

/-- The executed statement as the handler hands it to the storage layer:
its literal SQL text plus the bound parameters (station number and the two
date boundaries) and the raw requested tokens. -/
structure SqlQuery where
  text : String
  station : Int
  startD : Date
  endD : Date
  fields : List String
deriving DecidableEq, Repr

/-- How the pure validation / query-construction phase of the `/input/data`
handler can end: a 400 rejection via `http.Error`, a process exit via
`log.Fatal`, a runtime panic (slice index out of range on
`dateRangeParts[1]`), or a constructed query reaching the storage layer. -/
inductive Action where
  | reject (msg : String)
  | fatalExit
  | panicOOB
  | query (q : SqlQuery)
deriving DecidableEq, Repr

def Action.isReject : Action → Bool
  | Action.reject _ => true
  | _ => false

def Action.isQuery : Action → Bool
  | Action.query _ => true
  | _ => false

def queryTextOf : Action → Option String
  | Action.query q => some q.text
  | _ => none

/-- Embedding of `main.go` lines 150-190, up to (and including) constructing
the query passed to `db.Query`; everything before the storage layer is
reached. -/
def fetchPlan (stationNumber dateRange ty : String) : Action :=
  if dataTypeOf ty = "\"\"" then Action.reject missingMsg
  else
    match goAtoi stationNumber with
    | none => Action.reject missingMsg
    | some n =>
      match goParseDate ((goSplitComma dateRange).headD "") with
      | none => Action.fatalExit
      | some startDate =>
        match (goSplitComma dateRange).get? 1 with
        | none => Action.panicOOB
        | some second =>
          match goParseDate second with
          | none => Action.fatalExit
          | some endDate =>
            Action.query
              { text := "SELECT " ++ dataTypeOf ty ++ tailQueryText
                station := n
                startD := startDate
                endD := endDate
                fields := goSplitComma ty }

/-! ## Station records and `Station.MarshalJSON` (main.go lines 16-61) -/

/-- Embedding of Go `sql.NullFloat64`. -/
structure NullFloat64 where
  float64 : ℚ
  valid : Bool
deriving DecidableEq, Repr

structure Station where
  stationNumber : Int
  stationName : String
  latitude : ℚ
  longitude : ℚ
  elevation : NullFloat64
deriving DecidableEq, Repr

/-- Embedding of `Station.MarshalJSON`: all struct fields are emitted under
their JSON tags; the `elevation` key carries the stored float when the
`sql.NullFloat64` is valid and JSON null otherwise (the outer field of the
anonymous wrapper struct shadows the embedded alias field of the same
name, so exactly one `elevation` key is produced). -/
def marshalStation (s : Station) : Json :=
  Json.obj
    [("station_number", Json.num (s.stationNumber : ℚ)),
     ("station_name", Json.str s.stationName),
     ("latitude", Json.num s.latitude),
     ("longitude", Json.num s.longitude),
     ("elevation", if s.elevation.valid then Json.num s.elevation.float64 else Json.null)]

def lookupField : List (String × Json) → String → Option Json
  | [], _ => none
  | (k1, v) :: rest, k => if k1 = k then some v else lookupField rest k

/-- Field access on a marshalled JSON object. -/
def jsonField (j : Json) (k : String) : Option Json :=
  match j with
  | Json.obj fs => lookupField fs k
  | _ => none

/-! ## Storage semantics of the generated query

The storage collaborator (PostgreSQL) is external to src/, so its reading
of the generated statement is modelled from the spec: the projection
selects the requested field names plus the observation date, constrained
to rows whose station identifier equals the bound station number and whose
date falls within the inclusive range of the two bound date parameters. -/

/-- One row of the `Weather` table: the station-number column, the
`Tanggal` date column, and the named measurement cells (an SQL NULL cell
is `Value.null`). -/
structure WeatherRow where
  stationNumber : Int
  tanggal : Date
  cells : List (String × Value)
deriving DecidableEq, Repr

/-- The WHERE clause: `station_number = $1 AND TO_DATE("Tanggal",...)
BETWEEN $2 AND $3` with BETWEEN inclusive on both ends. -/
def rowMatches (q : SqlQuery) (r : WeatherRow) : Bool :=
  r.stationNumber == q.station
    && decide (q.startD.key ≤ r.tanggal.key)
    && decide (r.tanggal.key ≤ q.endD.key)

def matchedRows (q : SqlQuery) (db : List WeatherRow) : List WeatherRow :=
  db.filter (rowMatches q)

/-- The column list of the executed SELECT, as `rows.Columns()` reports it:
the requested tokens followed by `Tanggal` (line 187 appends
`,"Tanggal"` to the projection). -/
def selectedCols (fields : List String) : List String := fields ++ ["Tanggal"]

/-! ## Row shaping (main.go lines 196-215)

Each returned row is scanned into a `values` slice and folded into a Go map
`resultMap[columns[i]] = values[i]`. -/

/-- Go map lookup on the association-list model of `map[string]interface\x7b\x7d`. -/
def goLookup : List (String × Value) → String → Option Value
  | [], _ => none
  | (k1, v) :: rest, k => if k1 = k then some v else goLookup rest k

/-- Go map assignment `m[k] = v`: overwrite the existing entry or add one. -/
def goInsert : List (String × Value) → String → Value → List (String × Value)
  | [], k, v => [(k, v)]
  | (k1, v1) :: rest, k, v =>
    if k1 = k then (k, v) :: rest else (k1, v1) :: goInsert rest k v

/-- The loop `for i, val := range values \x7b resultMap[columns[i]] = val \x7d`. -/
def buildResultMap (cols : List String) (vals : List Value) : List (String × Value) :=
  (cols.zip vals).foldl (fun m p => goInsert m p.1 p.2) []

/-- The value `rows.Scan` delivers for a selected column of a row: the
`Tanggal` column scans as the stored date text, a measurement column scans
as its cell value, SQL NULL scanning as the nil interface (`Value.null`). -/
def rowValue (r : WeatherRow) (c : String) : Value :=
  if c = "Tanggal" then Value.str (formatDate r.tanggal)
  else (goLookup r.cells c).getD Value.null

/-- The `resultMap` the handler builds for one returned row. -/
def resultRowMap (q : SqlQuery) (r : WeatherRow) : List (String × Value) :=
  buildResultMap (selectedCols q.fields) ((selectedCols q.fields).map (rowValue r))

def rowJson (q : SqlQuery) (r : WeatherRow) : Json :=
  Json.obj ((resultRowMap q r).map (fun p => (p.1, valueToJson p.2)))

/-! ## Go slices and the two handler outcomes -/

/-- A Go slice of JSON rows: `none` is the nil slice (`var results []T`),
which `json.Marshal` renders as `null`; `some xs` is a non-nil slice,
rendered as an array. `append` on the nil slice allocates. -/
def goAppend (acc : Option (List Json)) (x : Json) : Option (List Json) :=
  match acc with
  | none => some [x]
  | some xs => some (xs ++ [x])

def marshalGoSlice (acc : Option (List Json)) : Json :=
  match acc with
  | none => Json.null
  | some xs => Json.arr xs

/-- How a request ends: a 400 `http.Error`, a `log.Fatal` process exit, a
runtime panic, or a 200 JSON body. -/
inductive Outcome where
  | badRequest (msg : String)
  | fatalExit
  | panicked
  | ok (body : Json)

/-- Execution phase of `/input/data` (lines 190-225): a storage error hits
`log.Fatal`; otherwise the matching rows are shaped into maps and appended
to the never-initialised `results` slice, which is then marshalled. -/
def inputDataOutcome (q : SqlQuery) (storage : Except String (List WeatherRow)) : Outcome :=
  match storage with
  | Except.error _ => Outcome.fatalExit
  | Except.ok db =>
    Outcome.ok (marshalGoSlice
      ((matchedRows q db).foldl (fun acc r => goAppend acc (rowJson q r)) none))

/-- The `/stations` handler (lines 95-135): a storage error hits
`log.Fatal`; otherwise every station is appended to the
initialised-empty `stations` slice, which marshals as a JSON array. -/
def stationsOutcome (storage : Except String (List Station)) : Outcome :=
  match storage with
  | Except.error _ => Outcome.fatalExit
  | Except.ok ss =>
    Outcome.ok (marshalGoSlice
      (ss.foldl (fun acc s => goAppend acc (marshalStation s)) (some [])))

/-- The whole `/input/data` handler: validation plus execution. -/
def fetchObservations (stationNumber dateRange ty : String)
    (storage : Except String (List WeatherRow)) : Outcome :=
  match fetchPlan stationNumber dateRange ty with
  | Action.reject msg => Outcome.badRequest msg
  | Action.fatalExit => Outcome.fatalExit
  | Action.panicOOB => Outcome.panicked
  | Action.query q => inputDataOutcome q storage

/-! ## Quoted-identifier structure of an SQL text

To state what "appears only inside a quoted identifier" means, a small
scanner removes every double-quoted identifier segment from an SQL text
(honouring the SQL escape of a doubled quote inside a quoted identifier)
and keeps the bare, executable remainder. -/

def stripQuoted : Bool → List Char → List Char
  | _, [] => []
  | true, '"' :: '"' :: rest => stripQuoted true rest
  | b, '"' :: rest => stripQuoted (!b) rest
  | true, _ :: rest => stripQuoted true rest
  | false, c :: rest => c :: stripQuoted false rest

/-- The part of an SQL text standing outside every double-quoted
identifier. -/
def unquotedText (s : String) : String := String.mk (stripQuoted false s.data)

/-- Modelled from the spec: the correct quoting of a field name as an SQL
identifier ("individually escaped/quoted as identifiers"), which doubles
every embedded double-quote character so the token can never terminate the
identifier early. Stands next to the code's `quoteWrap` for comparison. -/
def specQuoteIdent (t : String) : String :=
  "\"" ++ String.mk (t.data.foldr
    (fun c acc => if c == '"' then '"' :: '"' :: acc else c :: acc) []) ++ "\""

def isPrefixCh : List Char → List Char → Bool
  | [], _ => true
  | _ :: _, [] => false
  | a :: as, b :: bs => a == b && isPrefixCh as bs

/-- Substring test on character lists. -/
def containsCh (needle : List Char) : List Char → Bool
  | [] => needle.isEmpty
  | c :: rest => isPrefixCh needle (c :: rest) || containsCh needle rest

/-! ## Helper lemmas on the Go map model -/

theorem goLookup_goInsert_self (m : List (String × Value)) (k : String) (v : Value) :
    goLookup (goInsert m k v) k = some v := by
  induction m with
  | nil => simp [goInsert, goLookup]
  | cons p rest ih =>
    obtain ⟨k1, v1⟩ := p
    by_cases h : k1 = k
    · simp [goInsert, goLookup, h]
    · simp [goInsert, goLookup, h, ih]

theorem goLookup_goInsert_other (m : List (String × Value)) (k c : String) (v : Value)
    (hne : c ≠ k) : goLookup (goInsert m k v) c = goLookup m c := by
  induction m with
  | nil =>
    simp only [goInsert, goLookup]
    rw [if_neg (fun h => hne h.symm)]
  | cons p rest ih =>
    obtain ⟨k1, v1⟩ := p
    by_cases h : k1 = k
    · subst h
      simp only [goInsert, if_pos rfl, goLookup]
      rw [if_neg (fun hh => hne hh.symm), if_neg (fun hh => hne hh.symm)]
    · simp only [goInsert, if_neg h, goLookup]
      by_cases hc : k1 = c
      · rw [if_pos hc, if_pos hc]
      · rw [if_neg hc, if_neg hc, ih]

/-- Folding the scanned values of a row into the Go map makes every column
of the row a present key holding that column's scanned value. -/
theorem goLookup_foldIns (f : String → Value) (cols : List String)
    (m : List (String × Value)) (c : String)
    (h : c ∈ cols ∨ goLookup m c = some (f c)) :
    goLookup ((cols.map (fun x => (x, f x))).foldl (fun acc p => goInsert acc p.1 p.2) m) c
      = some (f c) := by
  induction cols generalizing m with
  | nil =>
    rcases h with h | h
    · exact absurd h (List.not_mem_nil c)
    · simpa using h
  | cons x xs ih =>
    simp only [List.map_cons, List.foldl_cons]
    apply ih
    rcases h with h | h
    · rcases List.mem_cons.mp h with h | h
      · subst h
        right
        exact goLookup_goInsert_self m c (f c)
      · left
        exact h
    · by_cases hx : c = x
      · subst hx
        right
        exact goLookup_goInsert_self m c (f c)
      · right
        rw [goLookup_goInsert_other m x c (f x) hx]
        exact h

theorem zip_map_self (f : String → Value) :
    ∀ l : List String, l.zip (l.map f) = l.map (fun x => (x, f x))
  | [] => rfl
  | x :: xs => by
    simp only [List.map_cons, List.zip_cons_cons, zip_map_self f xs]

theorem resultRow_lookup (q : SqlQuery) (r : WeatherRow) (c : String)
    (hc : c ∈ selectedCols q.fields) :
    goLookup (resultRowMap q r) c = some (rowValue r c) := by
  unfold resultRowMap buildResultMap
  rw [zip_map_self]
  exact goLookup_foldIns (rowValue r) (selectedCols q.fields) [] c (Or.inl hc)

/-! ## The claims -/

/-- C1: the claim that every requested field-name token is either rejected
or appears only inside a correctly escaped quoted identifier fails on the
code. The handler wraps each token in double quotes without escaping
embedded quote characters (line 156), so the token
`tn";DROP TABLE "Weather` passes validation, and in the built statement the
text `;DROP TABLE ` stands OUTSIDE every quoted identifier — the
statement's shape is altered. With the spec's correct doubling of embedded
quotes the same token would stay inside one identifier and no `;DROP`
would reach bare SQL text. -/
theorem injection_token_escapes_identifier :
    (fetchPlan "97230" "2023-01-01,2023-01-31" "tn\";DROP TABLE \"Weather").isReject = false ∧
    queryTextOf (fetchPlan "97230" "2023-01-01,2023-01-31" "tn\";DROP TABLE \"Weather")
      = some (buildQueryTextWith quoteWrap ["tn\";DROP TABLE \"Weather"]) ∧
    containsCh ";DROP TABLE ".data
      (unquotedText (buildQueryTextWith quoteWrap ["tn\";DROP TABLE \"Weather"])).data = true ∧
    containsCh ";DROP".data
      (unquotedText (buildQueryTextWith specQuoteIdent ["tn\";DROP TABLE \"Weather"])).data
      = false :=
  ⟨rfl, rfl, rfl, rfl⟩

/-- C2: the claim that a malformed `dateRange` yields InvalidRequest fails
on the code: a `dateRange` without a comma panics on
`dateRangeParts[1]` (index out of range), an unparsable first date hits
`log.Fatal` (process exit), and a three-part `dateRange` is silently
accepted — none of these is a 400 rejection. -/
theorem malformed_dateRange_crashes :
    fetchPlan "97230" "2023-01-01" "tn" = Action.panicOOB ∧
    fetchPlan "97230" "bad,2023-01-01" "tn" = Action.fatalExit ∧
    (fetchPlan "97230" "2023-01-01,2023-01-05,2023-01-09" "tn").isQuery = true ∧
    fetchObservations "97230" "2023-01-01" "tn" (Except.ok []) = Outcome.panicked :=
  ⟨rfl, rfl, rfl, rfl⟩

/-- C3: the claim that a storage failure is surfaced as a per-request error
fails on the code: both handlers call `log.Fatal` on a storage error,
halting the serving process instead of answering the one request with an
error. -/
theorem storage_failure_halts_process (q : SqlQuery) (e : String) :
    inputDataOutcome q (Except.error e) = Outcome.fatalExit ∧
    stationsOutcome (Except.error e) = Outcome.fatalExit :=
  ⟨rfl, rfl⟩

/-- C4 counterexample: a `type` parameter consisting only of a comma (two
empty tokens) is NOT rejected — the guard only compares the joined text
against a single pair of quotes — and a query of empty quoted identifiers
is issued to the storage layer. -/
theorem commas_type_not_rejected :
    (fetchPlan "97230" "2023-01-01,2023-01-31" ",").isReject = false ∧
    (fetchPlan "97230" "2023-01-01,2023-01-31" ",").isQuery = true :=
  ⟨rfl, rfl⟩

/-- C4 amended: only for an exactly empty `type` parameter (whose split is
the single empty token) does the handler fail with InvalidRequest
("missing data types") before validating any other parameter, issuing no
storage query. -/
theorem empty_type_rejected_first (sn dr : String) :
    fetchPlan sn dr "" = Action.reject missingMsg ∧
    ∀ st, fetchObservations sn dr "" st = Outcome.badRequest missingMsg :=
  ⟨rfl, fun _ => rfl⟩

/-- C5: for every Station record the serialized `elevation` key is present,
carrying exactly JSON null when the stored elevation is absent and exactly
the stored numeric value when it is present. -/
theorem station_elevation_json (s : Station) :
    jsonField (marshalStation s) "elevation"
      = some (if s.elevation.valid then Json.num s.elevation.float64 else Json.null) :=
  rfl

/-- C6: for every returned row, the shaped result map holds every selected
column name (the requested fields plus `Tanggal`, which the query always
includes) as a present key mapping to that column's scanned value; in
particular an SQL-null cell maps to an explicit null under a present key,
never an omitted key. -/
theorem result_row_explicit_null (q : SqlQuery) (r : WeatherRow) (c : String)
    (hc : c ∈ selectedCols q.fields) :
    "Tanggal" ∈ selectedCols q.fields ∧
    goLookup (resultRowMap q r) c = some (rowValue r c) := by
  constructor
  · unfold selectedCols
    simp
  · exact resultRow_lookup q r c hc

/-- C6 witness: for a row whose `tx` measurement is SQL null, the shaped map
has key `tx` present with an explicit null. -/
theorem result_row_explicit_null_witness :
    "Tanggal" ∈ selectedCols ["tn", "tx"] ∧
    goLookup (resultRowMap ⟨"q", 0, ⟨2023, 1, 1⟩, ⟨2023, 1, 31⟩, ["tn", "tx"]⟩
        ⟨97230, ⟨2023, 1, 15⟩, [("tn", Value.num 24), ("tx", Value.null)]⟩) "tx"
      = some Value.null :=
  result_row_explicit_null ⟨"q", 0, ⟨2023, 1, 1⟩, ⟨2023, 1, 31⟩, ["tn", "tx"]⟩
    ⟨97230, ⟨2023, 1, 15⟩, [("tn", Value.num 24), ("tx", Value.null)]⟩ "tx" (by decide)

/-- C7: a `stationNumber` that `strconv.Atoi` cannot parse is rejected with
the 400 error before any storage query is constructed, whatever the other
parameters are. -/
theorem nonInteger_station_rejected (sn dr ty : String) (h : goAtoi sn = none) :
    fetchPlan sn dr ty = Action.reject missingMsg ∧
    ∀ st, fetchObservations sn dr ty st = Outcome.badRequest missingMsg := by
  have hplan : fetchPlan sn dr ty = Action.reject missingMsg := by
    unfold fetchPlan
    split
    · rfl
    · rw [h]
  refine ⟨hplan, fun st => ?_⟩
  unfold fetchObservations
  rw [hplan]

/-- C7 witness at `stationNumber = "abc"`. -/
theorem nonInteger_station_rejected_witness :
    fetchPlan "abc" "2023-01-01,2023-01-31" "tn" = Action.reject missingMsg :=
  (nonInteger_station_rejected "abc" "2023-01-01,2023-01-31" "tn" rfl).1

/-- C8: when a well-formed request carries a reversed date range (start
after end), the constructed query still executes without crashing and the
inclusive BETWEEN filter matches no row, so the handler answers with the
marshalled empty (nil) result. -/
theorem reversed_range_empty (sn dr ty : String) (q : SqlQuery) (db : List WeatherRow)
    (_hq : fetchPlan sn dr ty = Action.query q) (hlt : q.endD.key < q.startD.key) :
    matchedRows q db = [] ∧ inputDataOutcome q (Except.ok db) = Outcome.ok Json.null := by
  have hm : matchedRows q db = [] := by
    apply List.filter_eq_nil_iff.mpr
    intro r hr hcontra
    simp only [rowMatches, Bool.and_eq_true, decide_eq_true_eq] at hcontra
    obtain ⟨⟨hst, h1⟩, h2⟩ := hcontra
    omega
  refine ⟨hm, ?_⟩
  simp only [inputDataOutcome, hm]
  rfl

/-- C8 witness: a reversed range over a store holding one row strictly
between the reversed bounds yields zero rows and a crash-free response. -/
theorem reversed_range_empty_witness :
    matchedRows ⟨"SELECT " ++ dataTypeOf "tn" ++ tailQueryText, 97230,
        ⟨2023, 1, 10⟩, ⟨2023, 1, 1⟩, ["tn"]⟩
        [⟨97230, ⟨2023, 1, 5⟩, [("tn", Value.num 24)]⟩] = [] ∧
    inputDataOutcome ⟨"SELECT " ++ dataTypeOf "tn" ++ tailQueryText, 97230,
        ⟨2023, 1, 10⟩, ⟨2023, 1, 1⟩, ["tn"]⟩
        (Except.ok [⟨97230, ⟨2023, 1, 5⟩, [("tn", Value.num 24)]⟩])
      = Outcome.ok Json.null :=
  reversed_range_empty "97230" "2023-01-10,2023-01-01" "tn" _ _ rfl (by decide)

/-- C9 counterexample: `stationNumber = "0"` and `stationNumber = "-5"` are
NOT rejected: the plan proceeds to issue a storage query. -/
theorem zero_station_accepted :
    (fetchPlan "0" "2023-01-01,2023-01-02" "tn").isReject = false ∧
    (fetchPlan "-5" "2023-01-01,2023-01-02" "tn").isQuery = true :=
  ⟨rfl, rfl⟩

/-- C9 amended: the handler validates `stationNumber` only through
`strconv.Atoi`: once the type check passes, any string parsing as an
integer — zero and negative values included — is accepted and never
rejected as InvalidRequest. -/
theorem any_integer_station_accepted (sn dr ty msg : String) (n : Int)
    (hn : goAtoi sn = some n) (hty : dataTypeOf ty ≠ "\"\"") :
    fetchPlan sn dr ty ≠ Action.reject msg := by
  intro hcontra
  rcases h1 : goParseDate ((goSplitComma dr).headD "") with _ | sd
  · simp only [fetchPlan, if_neg hty, hn, h1] at hcontra
    exact Action.noConfusion hcontra
  · rcases h2 : (goSplitComma dr).get? 1 with _ | second
    · simp only [fetchPlan, if_neg hty, hn, h1, h2] at hcontra
      exact Action.noConfusion hcontra
    · rcases h3 : goParseDate second with _ | ed
      · simp only [fetchPlan, if_neg hty, hn, h1, h2, h3] at hcontra
        exact Action.noConfusion hcontra
      · simp only [fetchPlan, if_neg hty, hn, h1, h2, h3] at hcontra
        exact Action.noConfusion hcontra

/-- C9 amended witness at `stationNumber = "-5"`. -/
theorem any_integer_station_accepted_witness :
    fetchPlan "-5" "2023-01-01,2023-01-02" "tn" ≠ Action.reject missingMsg :=
  any_integer_station_accepted "-5" "2023-01-01,2023-01-02" "tn" missingMsg (-5) rfl
    (by decide)

/-- C10: when the `/input/data` query matches zero rows the `results` slice
is never initialised and the success body marshals as JSON `null`, while
`/stations` with zero stations marshals its initialised-empty slice as
`[]`. -/
theorem zero_rows_marshals_null (q : SqlQuery) (db : List WeatherRow)
    (h : matchedRows q db = []) :
    inputDataOutcome q (Except.ok db) = Outcome.ok Json.null ∧
    stationsOutcome (Except.ok []) = Outcome.ok (Json.arr []) := by
  refine ⟨?_, rfl⟩
  simp only [inputDataOutcome, h]
  rfl

/-- C10 witness over an empty store. -/
theorem zero_rows_marshals_null_witness :
    inputDataOutcome ⟨"SELECT " ++ dataTypeOf "tn" ++ tailQueryText, 1,
        ⟨2023, 1, 1⟩, ⟨2023, 1, 2⟩, ["tn"]⟩ (Except.ok []) = Outcome.ok Json.null ∧
    stationsOutcome (Except.ok []) = Outcome.ok (Json.arr []) :=
  zero_rows_marshals_null _ [] rfl

end BackendHujan
